import Mathlib

/-!
Verification of the Funny-Calculator repository (`src/calculator.py`).

The development shallowly embeds the two logical components of the program:

* the restricted expression evaluator (`evaluate_expression` / `safe_eval`,
  lines 27-73 of `calculator.py`), including a model of the fragment of
  Python's `ast.parse` that the inputs of interest exercise, and
* the timed reveal sequencer (`run_sequence_then_eval`, lines 416-452, and
  the structurally identical `run_gui.start_sequence.step`, lines 262-317),
  modelled as an explicit state machine producing a trace of display events
  and a total of the scheduled delays.

Modelling conventions:

* Python numbers are embedded as `PyNum`: either an arbitrary-precision
  integer (`Int`) or a float.  Floats are modelled as exact rationals (`ℚ`);
  every concrete value appearing in a theorem below (2.5, 4.0, ...) is
  exactly representable in binary floating point, so no rounding behaviour
  is relied upon.  `a ** b` with a float exponent whose value is not an
  integer is the one place where the rational model cannot follow Python;
  it is mapped to a dedicated error value (`InnerErr.unmodelledFloatPow`)
  and no theorem below depends on that branch.
* Python's `bool` is a subclass of `int`, so `isinstance(True, int)` holds;
  the `isinstance(node.value, (int, float))` test of `safe_eval` therefore
  accepts boolean constants and they evaluate to their integer value
  (`True` behaves as `1`).  The embedding mirrors this.
* The lexer/parser models Python's tokenizer and `ast.parse(mode='eval')`
  on the surface relevant to this program: decimal integer and float
  literals, the seven arithmetic binary operators, unary `+`/`-`/`~`,
  parentheses, identifiers (with the keywords `True`/`False`/`None` lexed
  as constants), simple string literals without escapes, list literals,
  calls, and single (non-chained) comparisons with `<`, `>`, `==`.
  Constructs outside this surface (complex literals, underscores in
  numbers, `lambda`, boolean operators, dict/set/tuple displays, attribute
  access, ...) are lexed or parsed to a failure, which the evaluator maps
  to the same wrapped error that Python's `SyntaxError`, or `safe_eval`'s
  `ValueError`, would produce.
* Error values: every failure path of `evaluate_expression` in the source
  raises `ValueError(f"Invalid expression: ...")` with the inner
  exception's text interpolated.  The embedding keeps the inner cause as a
  structured value (`InnerErr`) wrapped by `PyError.invalidExpression`, and
  renders the human-readable text with `errStr`.  Version-dependent
  details of CPython's message texts (the `(<unknown>, line 1)` suffix of a
  `SyntaxError`, the exact zero-division wording, `ast.dump` formatting)
  follow CPython 3.10.
-/

/-! ## Python numbers -/

/-- A Python number reaching `safe_eval`: an `int` or a `float`.
Floats are modelled as exact rationals (see the file header). -/
inductive PyNum where
  | int (n : Int)
  | float (q : ℚ)
deriving DecidableEq, Repr

/-- Numeric value of a `PyNum` (Python's implicit int-to-float coercion). -/
def PyNum.toQ : PyNum → ℚ
  | .int n => (n : ℚ)
  | .float q => q

/-! ## The restricted AST (the fragment of Python's `ast` that the program
walks) and the error model -/

/-- Binary operator nodes produced by the modelled parser.  All seven are
keys of `ALLOWED_OPERATORS` in the source. -/
inductive BOp where
  | add | sub | mult | div | floorDiv | mod | pow
deriving DecidableEq, Repr

/-- Unary operator nodes.  `usub`/`uadd` are keys of `ALLOWED_OPERATORS`;
`invert` (`~`, `ast.Invert`) is parsable but not allowed. -/
inductive UOp where
  | usub | uadd | invert
deriving DecidableEq, Repr

/-- Constants (`ast.Constant` values) the modelled parser can produce. -/
inductive PyConst where
  | int (n : Int)
  | float (q : ℚ)
  | bool (b : Bool)
  | str (s : String)
  | none
deriving DecidableEq, Repr

/-- Comparison operators (only used to witness that `ast.Compare` nodes are
rejected by `safe_eval`). -/
inductive CmpOp where
  | lt | gt | eq
deriving DecidableEq, Repr

/-- The embedded syntax tree: the node shapes of Python's `ast` that the
inputs of interest can produce.  `safe_eval` walks `binOp`, `unaryOp` and
`const` and rejects every other shape. -/
inductive PyExpr where
  | const (c : PyConst)
  | binOp (op : BOp) (l r : PyExpr)
  | unaryOp (op : UOp) (e : PyExpr)
  | name (id : String)
  | call (func : PyExpr) (args : List PyExpr)
  | listLit (elts : List PyExpr)
  | compare (l : PyExpr) (op : CmpOp) (r : PyExpr)
deriving Repr

/-- The cause of a failure inside `evaluate_expression`'s `try` block:
either `ast.parse` raised `SyntaxError`, or one of the `raise` sites of
`safe_eval` (or a `ZeroDivisionError` from an operator application) fired.
`unmodelledFloatPow` is a model artifact, see the file header. -/
inductive InnerErr where
  | syntaxError
  | opNotAllowed (op : BOp)
  | unaryOpNotAllowed (op : UOp)
  | nonNumericConstant
  | unsupportedExpression (node : PyExpr)
  | zeroDivision (msg : String)
  | unmodelledFloatPow
deriving Repr

/-- The exception `evaluate_expression` raises:
`ValueError(f"Invalid expression: ...")` wrapping the inner cause. -/
inductive PyError where
  | invalidExpression (e : InnerErr)
deriving Repr

/-! ## The allowed operators (`ALLOWED_OPERATORS`, lines 27-37) -/

/-- `operator.add` / `operator.sub` / `operator.mul` on Python numbers:
int op int stays int, otherwise the result is a float. -/
def pyAdd : PyNum → PyNum → PyNum
  | .int a, .int b => .int (a + b)
  | a, b => .float (a.toQ + b.toQ)

/-- See `pyAdd`. -/
def pySub : PyNum → PyNum → PyNum
  | .int a, .int b => .int (a - b)
  | a, b => .float (a.toQ - b.toQ)

/-- See `pyAdd`. -/
def pyMul : PyNum → PyNum → PyNum
  | .int a, .int b => .int (a * b)
  | a, b => .float (a.toQ * b.toQ)

/-- `operator.truediv`: always produces a float; raises `ZeroDivisionError`
on a zero divisor (message per the operand kinds, as in CPython). -/
def pyDiv (a b : PyNum) : Except InnerErr PyNum :=
  match a, b with
  | .int _, .int bb =>
      if bb = 0 then .error (.zeroDivision "division by zero")
      else .ok (.float (a.toQ / b.toQ))
  | _, _ =>
      if b.toQ = 0 then .error (.zeroDivision "float division by zero")
      else .ok (.float (a.toQ / b.toQ))

/-- `operator.floordiv`: floored quotient; int // int is an int, otherwise
a float. -/
def pyFloorDiv (a b : PyNum) : Except InnerErr PyNum :=
  match a, b with
  | .int aa, .int bb =>
      if bb = 0 then .error (.zeroDivision "integer division or modulo by zero")
      else .ok (.int (Int.fdiv aa bb))
  | _, _ =>
      if b.toQ = 0 then .error (.zeroDivision "float floor division by zero")
      else .ok (.float ((a.toQ / b.toQ).floor : ℤ))

/-- `operator.mod`: floored-division remainder (sign follows the divisor),
as Python's `%`. -/
def pyMod (a b : PyNum) : Except InnerErr PyNum :=
  match a, b with
  | .int aa, .int bb =>
      if bb = 0 then .error (.zeroDivision "integer division or modulo by zero")
      else .ok (.int (Int.fmod aa bb))
  | _, _ =>
      if b.toQ = 0 then .error (.zeroDivision "float modulo")
      else .ok (.float (a.toQ - b.toQ * ((a.toQ / b.toQ).floor : ℤ)))

/-- `operator.pow`: int ** nonnegative int is an int; a negative integer
exponent produces a float (raising `ZeroDivisionError` for base 0); any
float operand produces a float.  A float exponent with non-integral value
leaves the rational model, see the file header. -/
def pyPow (a b : PyNum) : Except InnerErr PyNum :=
  match a, b with
  | .int aa, .int e =>
      if 0 ≤ e then .ok (.int (aa ^ e.toNat))
      else if aa = 0 then .error (.zeroDivision "0.0 cannot be raised to a negative power")
      else .ok (.float ((aa : ℚ) ^ e))
  | _, _ =>
      match b with
      | .int e =>
          if a.toQ = 0 ∧ e < 0 then .error (.zeroDivision "0.0 cannot be raised to a negative power")
          else .ok (.float (a.toQ ^ e))
      | .float qe =>
          if qe.den = 1 then
            if a.toQ = 0 ∧ qe.num < 0 then .error (.zeroDivision "0.0 cannot be raised to a negative power")
            else .ok (.float (a.toQ ^ qe.num))
          else .error .unmodelledFloatPow

/-- `operator.neg`. -/
def pyNeg : PyNum → PyNum
  | .int n => .int (-n)
  | .float q => .float (-q)

/-- The `ALLOWED_OPERATORS` dictionary, restricted to binary operator node
types: membership test plus lookup.  All seven arithmetic `ast` binary
operators are present. -/
def ALLOWED_BINOPS : BOp → Option (PyNum → PyNum → Except InnerErr PyNum)
  | .add => some (fun a b => .ok (pyAdd a b))
  | .sub => some (fun a b => .ok (pySub a b))
  | .mult => some (fun a b => .ok (pyMul a b))
  | .div => some pyDiv
  | .floorDiv => some pyFloorDiv
  | .mod => some pyMod
  | .pow => some pyPow

/-- The `ALLOWED_OPERATORS` dictionary, restricted to unary operator node
types: `ast.USub` and `ast.UAdd` are present, `ast.Invert` is not. -/
def ALLOWED_UNARYOPS : UOp → Option (PyNum → Except InnerErr PyNum)
  | .usub => some (fun a => .ok (pyNeg a))
  | .uadd => some (fun a => .ok a)
  | .invert => none

/-! ## `safe_eval` (lines 40-62) -/

/-- `safe_eval`: walks the tree, evaluating `BinOp`/`UnaryOp` nodes whose
operator is in `ALLOWED_OPERATORS` and numeric constants (Python's `bool`
being an `int` subclass, boolean constants pass the
`isinstance(node.value, (int, float))` test and contribute their integer
value); every other node shape raises.  The `ast.Expression` unwrap of the
source is performed by the modelled parser, which returns the body
directly. -/
def safe_eval : PyExpr → Except InnerErr PyNum
  | .binOp op l r =>
      match safe_eval l with
      | .error e => .error e
      | .ok lv =>
          match safe_eval r with
          | .error e => .error e
          | .ok rv =>
              match ALLOWED_BINOPS op with
              | some f => f lv rv
              | Option.none => .error (.opNotAllowed op)
  | .unaryOp op e =>
      match safe_eval e with
      | .error err => .error err
      | .ok v =>
          match ALLOWED_UNARYOPS op with
          | some f => f v
          | Option.none => .error (.unaryOpNotAllowed op)
  | .const (.int n) => .ok (.int n)
  | .const (.float q) => .ok (.float q)
  | .const (.bool b) => .ok (.int (if b then 1 else 0))
  | .const _ => .error .nonNumericConstant
  | t => .error (.unsupportedExpression t)

/-! ## The modelled tokenizer -/

/-- The characters `str.strip()` removes (Python's ASCII whitespace; other
Unicode whitespace also stripped by Python is not modelled). -/
def isPySpace (c : Char) : Bool :=
  c == ' ' || c == '\t' || c == '\n' || c == '\r' || c == Char.ofNat 11 || c == Char.ofNat 12

/-- `expr.strip()`. -/
def pyStrip (s : String) : String :=
  String.mk (((s.toList.dropWhile isPySpace).reverse.dropWhile isPySpace).reverse)

/-- A character that may continue an identifier. -/
def isIdentChar (c : Char) : Bool := c.isAlpha || c.isDigit || c == '_'

/-- A character that may start an identifier. -/
def isIdentStart (c : Char) : Bool := c.isAlpha || c == '_'

/-- Numeric value of a digit run. -/
def digitsToNat (ds : List Char) : Nat :=
  ds.foldl (fun n c => 10 * n + (c.toNat - '0'.toNat)) 0

/-- Tokens of the modelled Python tokenizer. -/
inductive Tok where
  | intLit (n : Nat)
  | floatLit (q : ℚ)
  | ident (s : String)
  | strLit (s : String)
  | plus | minus | star | dstar | slash | dslash | percent | tilde
  | lparen | rparen | lbracket | rbracket | comma
  | lt | gt | eqeq
deriving DecidableEq, Repr

/-- Value of a float literal `ip.fs` (exact, the literals in play being
short decimals). -/
def floatVal (ip : Nat) (fs : List Char) : ℚ :=
  (ip : ℚ) + (digitsToNat fs : ℚ) / ((10 : ℚ) ^ fs.length)

/-- One pass of the tokenizer; `fuel` bounds the recursion (every step
consumes at least one character, so `length + 1` always suffices).
Returns `Option.none` where Python's tokenizer/parser raises
`SyntaxError` (an unexpected character, an unterminated string). -/
def lexFrom : Nat → List Char → Option (List Tok)
  | 0, _ => Option.none
  | _ + 1, [] => some []
  | fuel + 1, c :: cs =>
    if isPySpace c then lexFrom fuel cs
    else if c.isDigit then
      let intDigits := (c :: cs).takeWhile Char.isDigit
      let rest := (c :: cs).dropWhile Char.isDigit
      match rest with
      | '.' :: rest2 =>
          let fracDigits := rest2.takeWhile Char.isDigit
          let rest3 := rest2.dropWhile Char.isDigit
          (Tok.floatLit (floatVal (digitsToNat intDigits) fracDigits) :: ·) <$> lexFrom fuel rest3
      | _ => (Tok.intLit (digitsToNat intDigits) :: ·) <$> lexFrom fuel rest
    else if c == '.' then
      match cs with
      | d :: _ =>
          if d.isDigit then
            let fracDigits := cs.takeWhile Char.isDigit
            let rest := cs.dropWhile Char.isDigit
            (Tok.floatLit (floatVal 0 fracDigits) :: ·) <$> lexFrom fuel rest
          else Option.none
      | [] => Option.none
    else if isIdentStart c then
      let idChars := (c :: cs).takeWhile isIdentChar
      let rest := (c :: cs).dropWhile isIdentChar
      (Tok.ident (String.mk idChars) :: ·) <$> lexFrom fuel rest
    else if c == '*' then
      match cs with
      | '*' :: cs2 => (Tok.dstar :: ·) <$> lexFrom fuel cs2
      | _ => (Tok.star :: ·) <$> lexFrom fuel cs
    else if c == '/' then
      match cs with
      | '/' :: cs2 => (Tok.dslash :: ·) <$> lexFrom fuel cs2
      | _ => (Tok.slash :: ·) <$> lexFrom fuel cs
    else if c == '=' then
      match cs with
      | '=' :: cs2 => (Tok.eqeq :: ·) <$> lexFrom fuel cs2
      | _ => Option.none
    else if c == '+' then (Tok.plus :: ·) <$> lexFrom fuel cs
    else if c == '-' then (Tok.minus :: ·) <$> lexFrom fuel cs
    else if c == '%' then (Tok.percent :: ·) <$> lexFrom fuel cs
    else if c == '~' then (Tok.tilde :: ·) <$> lexFrom fuel cs
    else if c == '(' then (Tok.lparen :: ·) <$> lexFrom fuel cs
    else if c == ')' then (Tok.rparen :: ·) <$> lexFrom fuel cs
    else if c == '[' then (Tok.lbracket :: ·) <$> lexFrom fuel cs
    else if c == ']' then (Tok.rbracket :: ·) <$> lexFrom fuel cs
    else if c == ',' then (Tok.comma :: ·) <$> lexFrom fuel cs
    else if c == '<' then (Tok.lt :: ·) <$> lexFrom fuel cs
    else if c == '>' then (Tok.gt :: ·) <$> lexFrom fuel cs
    else if c == Char.ofNat 39 || c == Char.ofNat 34 then
      let body := cs.takeWhile (fun d => d != c)
      let rest := cs.dropWhile (fun d => d != c)
      match rest with
      | _ :: rest2 => (Tok.strLit (String.mk body) :: ·) <$> lexFrom fuel rest2
      | [] => Option.none
    else Option.none

/-- Tokenize a whole input string. -/
def lex (s : String) : Option (List Tok) :=
  lexFrom (s.length + 1) s.toList

/-! ## The modelled parser (`ast.parse(expr, mode='eval')`)

Recursive descent over the token list, following Python's expression
precedence on the modelled surface: comparison < additive < multiplicative
< unary < power, with power right-associative and grouping in parentheses;
a call trailer may follow an atom.  Each function returns the parsed node
and the unconsumed tokens; `fuel` bounds the recursion depth (the top
level passes a bound that cannot be exhausted: every eight nested calls
consume at least one token). -/

mutual

/-- Full expression: a single, optionally compared, arithmetic expression
(Python chains comparisons; a single link suffices for the modelled
inputs, longer chains fail to parse). -/
def parseExpr : Nat → List Tok → Option (PyExpr × List Tok)
  | 0, _ => Option.none
  | fuel + 1, toks => do
      let (l, rest) ← parseArith fuel toks
      match rest with
      | Tok.lt :: rest2 => do
          let (r, rest3) ← parseArith fuel rest2
          pure (PyExpr.compare l CmpOp.lt r, rest3)
      | Tok.gt :: rest2 => do
          let (r, rest3) ← parseArith fuel rest2
          pure (PyExpr.compare l CmpOp.gt r, rest3)
      | Tok.eqeq :: rest2 => do
          let (r, rest3) ← parseArith fuel rest2
          pure (PyExpr.compare l CmpOp.eq r, rest3)
      | _ => pure (l, rest)

/-- Additive level: `term (('+'|'-') term)*`, left-associative. -/
def parseArith : Nat → List Tok → Option (PyExpr × List Tok)
  | 0, _ => Option.none
  | fuel + 1, toks => do
      let (t, rest) ← parseTerm fuel toks
      parseArithRest fuel t rest

/-- The left-recursive tail of the additive level. -/
def parseArithRest : Nat → PyExpr → List Tok → Option (PyExpr × List Tok)
  | 0, _, _ => Option.none
  | fuel + 1, acc, toks =>
      match toks with
      | Tok.plus :: rest => do
          let (t, rest2) ← parseTerm fuel rest
          parseArithRest fuel (PyExpr.binOp BOp.add acc t) rest2
      | Tok.minus :: rest => do
          let (t, rest2) ← parseTerm fuel rest
          parseArithRest fuel (PyExpr.binOp BOp.sub acc t) rest2
      | _ => pure (acc, toks)

/-- Multiplicative level: `factor (('*'|'/'|'//'|'%') factor)*`. -/
def parseTerm : Nat → List Tok → Option (PyExpr × List Tok)
  | 0, _ => Option.none
  | fuel + 1, toks => do
      let (f, rest) ← parseFactor fuel toks
      parseTermRest fuel f rest

/-- The left-recursive tail of the multiplicative level. -/
def parseTermRest : Nat → PyExpr → List Tok → Option (PyExpr × List Tok)
  | 0, _, _ => Option.none
  | fuel + 1, acc, toks =>
      match toks with
      | Tok.star :: rest => do
          let (t, rest2) ← parseFactor fuel rest
          parseTermRest fuel (PyExpr.binOp BOp.mult acc t) rest2
      | Tok.slash :: rest => do
          let (t, rest2) ← parseFactor fuel rest
          parseTermRest fuel (PyExpr.binOp BOp.div acc t) rest2
      | Tok.dslash :: rest => do
          let (t, rest2) ← parseFactor fuel rest
          parseTermRest fuel (PyExpr.binOp BOp.floorDiv acc t) rest2
      | Tok.percent :: rest => do
          let (t, rest2) ← parseFactor fuel rest
          parseTermRest fuel (PyExpr.binOp BOp.mod acc t) rest2
      | _ => pure (acc, toks)

/-- Unary level: `('+'|'-'|'~') factor | power`.  As in Python,
`-5 ** 2` parses as `-(5 ** 2)` because the power level sits below. -/
def parseFactor : Nat → List Tok → Option (PyExpr × List Tok)
  | 0, _ => Option.none
  | fuel + 1, toks =>
      match toks with
      | Tok.plus :: rest => do
          let (t, rest2) ← parseFactor fuel rest
          pure (PyExpr.unaryOp UOp.uadd t, rest2)
      | Tok.minus :: rest => do
          let (t, rest2) ← parseFactor fuel rest
          pure (PyExpr.unaryOp UOp.usub t, rest2)
      | Tok.tilde :: rest => do
          let (t, rest2) ← parseFactor fuel rest
          pure (PyExpr.unaryOp UOp.invert t, rest2)
      | _ => parsePower fuel toks

/-- Power level: `atom-with-trailers ('**' factor)?`, right-associative
with the unary level on the exponent side. -/
def parsePower : Nat → List Tok → Option (PyExpr × List Tok)
  | 0, _ => Option.none
  | fuel + 1, toks => do
      let (a, rest) ← parseAtomTrailer fuel toks
      match rest with
      | Tok.dstar :: rest2 => do
          let (e, rest3) ← parseFactor fuel rest2
          pure (PyExpr.binOp BOp.pow a e, rest3)
      | _ => pure (a, rest)

/-- An atom followed by call trailers (`f(...)`, possibly repeated). -/
def parseAtomTrailer : Nat → List Tok → Option (PyExpr × List Tok)
  | 0, _ => Option.none
  | fuel + 1, toks => do
      let (a, rest) ← parseAtom fuel toks
      parseTrailers fuel a rest

/-- Zero or more call trailers after an atom. -/
def parseTrailers : Nat → PyExpr → List Tok → Option (PyExpr × List Tok)
  | 0, _, _ => Option.none
  | fuel + 1, acc, toks =>
      match toks with
      | Tok.lparen :: Tok.rparen :: rest =>
          parseTrailers fuel (PyExpr.call acc []) rest
      | Tok.lparen :: rest => do
          let (args, rest2) ← parseExprList fuel rest
          match rest2 with
          | Tok.rparen :: rest3 => parseTrailers fuel (PyExpr.call acc args) rest3
          | _ => Option.none
      | _ => pure (acc, toks)

/-- One or more comma-separated expressions (call arguments, list
elements). -/
def parseExprList : Nat → List Tok → Option (List PyExpr × List Tok)
  | 0, _ => Option.none
  | fuel + 1, toks => do
      let (t, rest) ← parseExpr fuel toks
      match rest with
      | Tok.comma :: rest2 => do
          let (ts, rest3) ← parseExprList fuel rest2
          pure (t :: ts, rest3)
      | _ => pure ([t], rest)

/-- Atoms: literals (with the keywords `True`/`False`/`None` as constants,
as Python's grammar has them), identifiers, parenthesized expressions and
list displays. -/
def parseAtom : Nat → List Tok → Option (PyExpr × List Tok)
  | 0, _ => Option.none
  | fuel + 1, toks =>
      match toks with
      | Tok.intLit n :: rest => pure (PyExpr.const (PyConst.int n), rest)
      | Tok.floatLit q :: rest => pure (PyExpr.const (PyConst.float q), rest)
      | Tok.strLit s :: rest => pure (PyExpr.const (PyConst.str s), rest)
      | Tok.ident s :: rest =>
          if s = "True" then pure (PyExpr.const (PyConst.bool true), rest)
          else if s = "False" then pure (PyExpr.const (PyConst.bool false), rest)
          else if s = "None" then pure (PyExpr.const PyConst.none, rest)
          else pure (PyExpr.name s, rest)
      | Tok.lparen :: rest => do
          let (t, rest2) ← parseExpr fuel rest
          match rest2 with
          | Tok.rparen :: rest3 => pure (t, rest3)
          | _ => Option.none
      | Tok.lbracket :: Tok.rbracket :: rest => pure (PyExpr.listLit [], rest)
      | Tok.lbracket :: rest => do
          let (ts, rest2) ← parseExprList fuel rest
          match rest2 with
          | Tok.rbracket :: rest3 => pure (PyExpr.listLit ts, rest3)
          | _ => Option.none
      | _ => Option.none

end

/-- `ast.parse(expr, mode='eval')`: tokenize, parse one expression, and
require the input to be exhausted.  Returns the `body` of the
`ast.Expression` (the `isinstance(node, ast.Expression)` unwrap being the
first branch of `safe_eval` in the source).  `Option.none` plays the role
of `SyntaxError`. -/
def parse (s : String) : Option PyExpr :=
  match lex s with
  | Option.none => Option.none
  | some toks =>
      match parseExpr (8 * (toks.length + 1) + 8) toks with
      | some (t, []) => some t
      | _ => Option.none

/-! ## `evaluate_expression` (lines 65-73) -/

/-- `evaluate_expression`: the exact-text special case for `2 + 2` (after
`strip()`), then parse and `safe_eval`, any failure re-raised as
`ValueError(f"Invalid expression: ...")`. -/
def evaluate_expression (expr : String) : Except PyError PyNum :=
  if pyStrip expr == "2 + 2" || pyStrip expr == "2+2" then
    .ok (.int 5)
  else
    match parse expr with
    | Option.none => .error (.invalidExpression .syntaxError)
    | some t =>
        match safe_eval t with
        | .ok v => .ok v
        | .error e => .error (.invalidExpression e)

/-! ## Human-readable rendering (the strings the display layer receives) -/

/-- `repr` of a constant, as it appears inside `ast.dump` output. -/
def constRepr : PyConst → String
  | .int n => toString n
  | .float _ => "<float>"
  | .bool b => if b then "True" else "False"
  | .str s => "\x27" ++ s ++ "\x27"
  | .none => "None"

/-- Class name of a binary operator node (`ast.Add`, ...). -/
def bopName : BOp → String
  | .add => "Add"
  | .sub => "Sub"
  | .mult => "Mult"
  | .div => "Div"
  | .floorDiv => "FloorDiv"
  | .mod => "Mod"
  | .pow => "Pow"

/-- Class name of a unary operator node. -/
def uopName : UOp → String
  | .usub => "USub"
  | .uadd => "UAdd"
  | .invert => "Invert"

/-- Class name of a comparison operator node. -/
def cmpName : CmpOp → String
  | .lt => "Lt"
  | .gt => "Gt"
  | .eq => "Eq"

mutual

/-- `ast.dump(node)` (CPython 3.10 formatting) for the modelled node
shapes, interpolated into the `Unsupported expression` message. -/
def astDump : PyExpr → String
  | .const c => "Constant(value=" ++ constRepr c ++ ")"
  | .binOp op l r =>
      "BinOp(left=" ++ astDump l ++ ", op=" ++ bopName op ++ "(), right=" ++ astDump r ++ ")"
  | .unaryOp op e => "UnaryOp(op=" ++ uopName op ++ "(), operand=" ++ astDump e ++ ")"
  | .name id => "Name(id=\x27" ++ id ++ "\x27, ctx=Load())"
  | .call f args => "Call(func=" ++ astDump f ++ ", args=[" ++ astDumpList args ++ "], keywords=[])"
  | .listLit elts => "List(elts=[" ++ astDumpList elts ++ "], ctx=Load())"
  | .compare l op r =>
      "Compare(left=" ++ astDump l ++ ", ops=[" ++ cmpName op ++ "()], comparators=[" ++ astDump r ++ "])"

/-- Comma-separated dump of a node list. -/
def astDumpList : List PyExpr → String
  | [] => ""
  | [t] => astDump t
  | t :: rest => astDump t ++ ", " ++ astDumpList rest

end

/-- `str` of the inner exception interpolated by
`ValueError(f"Invalid expression: ...")`. -/
def innerErrStr : InnerErr → String
  | .syntaxError => "invalid syntax (<unknown>, line 1)"
  | .opNotAllowed op => "Operator <class \x27ast." ++ bopName op ++ "\x27> not allowed"
  | .unaryOpNotAllowed op => "Unary operator <class \x27ast." ++ uopName op ++ "\x27> not allowed"
  | .nonNumericConstant => "Only int/float constants are allowed"
  | .unsupportedExpression node => "Unsupported expression: " ++ astDump node
  | .zeroDivision msg => msg
  | .unmodelledFloatPow => "float power with non-integral exponent (outside the rational model)"

/-- `str(e)` for the exception `evaluate_expression` raises. -/
def errStr : PyError → String
  | .invalidExpression e => "Invalid expression: " ++ innerErrStr e

/-- Decimal digits of the fractional part (terminating decimals rendered
exactly; the bound of 30 digits is never reached by the values verified
below). -/
def fracDigits : Nat → ℚ → String
  | 0, _ => ""
  | n + 1, q =>
      if q = 0 then ""
      else
        let d : ℤ := (q * 10).floor
        toString d ++ fracDigits n (q * 10 - (d : ℚ))

/-- `str` of a Python float whose value is a terminating decimal (`"2.5"`,
`"4.0"`); matches CPython's shortest-round-trip repr on such values. -/
def pyFloatStr (q : ℚ) : String :=
  let sgn := if q < 0 then "-" else ""
  let a := |q|
  let ip := a.floor
  let ds := fracDigits 30 (a - (ip : ℚ))
  sgn ++ toString ip ++ "." ++ (if ds = "" then "0" else ds)

/-- `str(res)` for the final result (`f"{res}"` in the source). -/
def pyNumStr : PyNum → String
  | .int n => toString n
  | .float q => pyFloatStr q

/-! ## The message list and the reveal sequencer
(`MESSAGES`, lines 14-24; `run_sequence_then_eval`, lines 416-452;
`run_gui.start_sequence.step`, lines 262-317) -/

/-- The fixed `MESSAGES` list (9 entries). -/
def MESSAGES : List String := [
  "calculating...",
  "Going physical with codes...",
  "Asking Calculator God...",
  "Consulting with aliens...",
  "Counting number of stars in the galaxy...",
  "Asking your mom for help...",
  "Oops! Your mom is busy making breakfast...",
  "Checking Meesho discounts...",
  "Almost there...",
]

/-- The mutable dictionary `state = {'i': 0, 'phase': 0}` of one reveal. -/
structure SeqState where
  i : Nat
  phase : Nat
deriving DecidableEq, Repr

/-- Outcome of one invocation of the `step` closure: either it displays a
message and schedules itself again via `root.after(2000, step)`, or it
falls into the terminal branch (`finish()` in `run_sequence_then_eval`;
the inline evaluate-and-reenable block in `start_sequence`). -/
inductive StepOut where
  | next (text : String) (emphasized : Bool) (st : SeqState)
  | done
deriving DecidableEq, Repr

/-- One invocation of `step` on the current state.  Phase 0 with messages
remaining displays `MESSAGES[i]` plain (`bold=False` in
`start_sequence`) and moves to phase 1 at the same index; phase 1 with
`i + 1` in range displays `MESSAGES[i+1]` bold and moves to phase 0 at
index `i + 2`; otherwise the run is over.  The `emphasized` flag records
the `bold` argument of `append_display` (the keypad variant renders both
phases identically but is otherwise the same control flow). -/
def step (msgs : List String) (st : SeqState) : StepOut :=
  if st.phase = 0 then
    if h : st.i < msgs.length then
      .next (msgs.get ⟨st.i, h⟩) false ⟨st.i, 1⟩
    else .done
  else
    if h : st.i + 1 < msgs.length then
      .next (msgs.get ⟨st.i + 1, h⟩) true ⟨st.i + 2, 0⟩
    else .done

/-- An observable event of one reveal: a message display (`onUpdate`) or
the delivery of the final text (`onComplete`). -/
inductive Event where
  | update (text : String) (emphasized : Bool)
  | complete (text : String)
deriving DecidableEq, Repr

/-- The text the terminal branch displays (`finish`, lines 440-450): the
evaluator's result stringified, with the `👍🏻` suffix exactly when the
numeric result equals `5` (Python's `==` compares numerically across
int/float), or `str(e)` of the caught exception. -/
def resultText (expr : String) : String :=
  match evaluate_expression expr with
  | .error e => errStr e
  | .ok res => if res.toQ = 5 then pyNumStr res ++ " 👍🏻" else pyNumStr res

/-- Repeated invocation of `step`: the list of emitted events and the sum
of the scheduled delays (2000 ms per `root.after(2000, step)`; the
initial `root.after(0, step)` contributes 0).  `fuel` bounds the
recursion; `reveal` passes a bound that cannot be exhausted. -/
def runFrom (msgs : List String) (expr : String) : Nat → SeqState → List Event × Nat
  | 0, _ => ([], 0)
  | fuel + 1, st =>
      match step msgs st with
      | .next t e st2 =>
          let r := runFrom msgs expr fuel st2
          (.update t e :: r.1, 2000 + r.2)
      | .done => ([.complete (resultText expr)], 0)

/-- One full reveal: `state = {'i': 0, 'phase': 0}` then `step` until the
terminal branch. -/
def reveal (msgs : List String) (expr : String) : List Event × Nat :=
  runFrom msgs expr (2 * msgs.length + 1) ⟨0, 0⟩

/-- Specification-side description of the update trace: the messages in
list order with the emphasized flag alternating from `b`. -/
def altUpdates : List String → Bool → List Event
  | [], _ => []
  | m :: rest, b => .update m b :: altUpdates rest (!b)

/-- Whether an event is the completion event. -/
def Event.isCompletion : Event → Bool
  | .complete _ => true
  | .update _ _ => false

/-! ## The GUI frame around one reveal (control disabling/re-enabling) -/

/-- An event on the host widgets: `set_buttons('disabled'/'normal')` (in
`start_sequence`: the calculate button, both entries and the operator
button together), or a display update. -/
inductive GuiEvent where
  | setControls (enabled : Bool)
  | display (text : String) (emphasized : Bool)
deriving DecidableEq, Repr

/-- Rendering of a sequencer event on the widgets: the terminal event
displays the final text (bold in `start_sequence`) and then re-enables
the controls. -/
def toGui : Event → List GuiEvent
  | .update t e => [.display t e]
  | .complete t => [.display t true, .setControls true]

/-- `run_sequence_then_eval` (and `start_sequence` after input
validation): disable the controls, run the reveal, and let the terminal
branch re-enable them after displaying the result. -/
def run_sequence_then_eval (msgs : List String) (expr : String) : List GuiEvent :=
  GuiEvent.setControls false :: ((reveal msgs expr).1.map toGui).flatten

/-- Display rendering of a non-terminal event. -/
def updToDisplay : Event → GuiEvent
  | .update t e => .display t e
  | .complete t => .display t true

/-- Specification-side description of the widget-event trace of one
reveal. -/
def guiTrace (msgs : List String) (expr : String) : List GuiEvent :=
  (GuiEvent.setControls false :: (altUpdates msgs false).map updToDisplay)
    ++ [.display (resultText expr) true, .setControls true]

/-- Whether a widget event touches the controls' enabled state. -/
def GuiEvent.isSetControls : GuiEvent → Bool
  | .setControls _ => true
  | .display _ _ => false

/-! ## Classification of rejected constructs and error kinds -/

/-- A tree containing a construct outside the allowed grammar at a
position `safe_eval` will reach: a name, call, list display or comparison
node anywhere, or a constant that fails the
`isinstance(node.value, (int, float))` test (a string or `None`; boolean
constants pass it, Python's `bool` being an `int` subclass). -/
def hasDisallowed : PyExpr → Bool
  | .binOp _ l r => hasDisallowed l || hasDisallowed r
  | .unaryOp _ e => hasDisallowed e
  | .const (.str _) => true
  | .const .none => true
  | .const _ => false
  | _ => true

/-- The three error kinds of the specification's taxonomy (§7). -/
inductive SpecErrKind where
  | invalidExpr
  | unsupportedOperator
  | divisionByZero
deriving DecidableEq, Repr

/-- The taxonomy kind an inner cause belongs to: a `ZeroDivisionError`
is `DivisionByZeroError`, the two `not allowed` raises are
`UnsupportedOperatorError`, everything else is `InvalidExpressionError`. -/
def specKind : InnerErr → SpecErrKind
  | .zeroDivision _ => .divisionByZero
  | .opNotAllowed _ => .unsupportedOperator
  | .unaryOpNotAllowed _ => .unsupportedOperator
  | _ => .invalidExpr

/-! ## Trace characterization of the sequencer -/

/-- From a phase-0 state with enough fuel, the run emits the remaining
messages in order with alternating emphasis starting plain, then the
completion event; each emitted message is followed by one 2000 ms delay. -/
theorem runFrom_phase0 (msgs : List String) (expr : String) :
    ∀ fuel i, msgs.length - i < fuel →
      runFrom msgs expr fuel ⟨i, 0⟩ =
        (altUpdates (msgs.drop i) false ++ [Event.complete (resultText expr)],
          2000 * (msgs.length - i)) := by
  intro fuel
  induction fuel using Nat.strong_induction_on with
  | _ fuel ih =>
    intro i hf
    match fuel with
    | 0 => omega
    | f + 1 =>
      by_cases hi : i < msgs.length
      · have hstep : step msgs ⟨i, 0⟩ = .next msgs[i] false ⟨i, 1⟩ := by
          simp [step, hi]
        by_cases hj : i + 1 < msgs.length
        · obtain ⟨f2, rfl⟩ : ∃ f2, f = f2 + 1 := ⟨f - 1, by omega⟩
          have hstep2 : step msgs ⟨i, 1⟩ = .next msgs[i + 1] true ⟨i + 2, 0⟩ := by
            simp [step, hj]
          have hrec := ih f2 (by omega) (i + 2) (by omega)
          simp only [runFrom, hstep, hstep2, hrec]
          rw [List.drop_eq_getElem_cons hi, List.drop_eq_getElem_cons hj]
          simp [altUpdates]
          omega
        · obtain ⟨f2, rfl⟩ : ∃ f2, f = f2 + 1 := ⟨f - 1, by omega⟩
          have hstep2 : step msgs ⟨i, 1⟩ = .done := by
            simp [step, hj]
          simp only [runFrom, hstep, hstep2]
          rw [List.drop_eq_getElem_cons hi,
            List.drop_eq_nil_of_le (show msgs.length ≤ i + 1 by omega)]
          simp [altUpdates]
          omega
      · have hstep : step msgs ⟨i, 0⟩ = .done := by
          simp [step, hi]
        simp only [runFrom, hstep]
        rw [List.drop_eq_nil_of_le (by omega)]
        simp [altUpdates]
        omega

/-- One full reveal, in closed form. -/
theorem reveal_eq (msgs : List String) (expr : String) :
    reveal msgs expr =
      (altUpdates msgs false ++ [Event.complete (resultText expr)],
        2000 * msgs.length) := by
  have h := runFrom_phase0 msgs expr (2 * msgs.length + 1) 0 (by omega)
  simpa [reveal] using h

/-- The alternating update trace has one entry per message. -/
theorem altUpdates_length : ∀ (l : List String) (b : Bool),
    (altUpdates l b).length = l.length
  | [], _ => rfl
  | _ :: rest, b => by
      simp [altUpdates, altUpdates_length rest]

/-- No update event is a completion event. -/
theorem altUpdates_no_completion : ∀ (l : List String) (b : Bool),
    (altUpdates l b).filter Event.isCompletion = []
  | [], _ => rfl
  | _ :: rest, b => by
      simp [altUpdates, Event.isCompletion, altUpdates_no_completion rest]

/-- Widget rendering of the update part of a trace. -/
theorem toGui_flatten_updates : ∀ (l : List String) (b : Bool),
    ((altUpdates l b).map toGui).flatten = (altUpdates l b).map updToDisplay
  | [], _ => rfl
  | _ :: rest, b => by
      simp [altUpdates, toGui, updToDisplay, toGui_flatten_updates rest]

/-- Update displays never touch the controls. -/
theorem filter_setControls_updates : ∀ (l : List String) (b : Bool),
    ((altUpdates l b).map updToDisplay).filter GuiEvent.isSetControls = []
  | [], _ => rfl
  | _ :: rest, b => by
      simp [altUpdates, updToDisplay, GuiEvent.isSetControls,
        filter_setControls_updates rest]

/-- C2: for a message list of length `N`, one run of the reveal sequencer
emits exactly `N` update events before completion — the messages in list
order with the emphasized flag alternating `false, true, false, ...` —
followed by exactly one completion event (strictly after the last
update), and the total scheduled delay is `N * 2000` ms (one 2000 ms
delay after each message; the kick-off `root.after(0, step)` adds
nothing). -/
theorem reveal_trace_spec (msgs : List String) (expr : String) :
    reveal msgs expr =
      (altUpdates msgs false ++ [Event.complete (resultText expr)],
        2000 * msgs.length)
    ∧ (altUpdates msgs false).length = msgs.length
    ∧ ((reveal msgs expr).1.filter Event.isCompletion).length = 1 := by
  refine ⟨reveal_eq msgs expr, altUpdates_length msgs false, ?_⟩
  rw [reveal_eq]
  simp [List.filter_append, altUpdates_no_completion, Event.isCompletion]

/-- C7: the terminal state invokes the evaluator on the stored expression
and delivers one single completion event, as the last event of the trace:
on success the stringified numeric result with the decorative suffix
exactly when the numeric value equals 5, on failure the error's
human-readable description — through the same channel, so the evaluator's
exception never escapes the sequencer (the trace function is total). -/
theorem completion_channel_spec (msgs : List String) (expr : String) :
    (reveal msgs expr).1.getLast? = some (Event.complete (resultText expr))
    ∧ (reveal msgs expr).1.filter Event.isCompletion
        = [Event.complete (resultText expr)]
    ∧ resultText expr = (match evaluate_expression expr with
        | .error e => errStr e
        | .ok res => if res.toQ = 5 then pyNumStr res ++ " 👍🏻" else pyNumStr res) := by
  refine ⟨?_, ?_, rfl⟩
  · rw [reveal_eq]
    exact List.getLast?_concat _
  · rw [reveal_eq]
    simp [List.filter_append, altUpdates_no_completion, Event.isCompletion]

/-- C10: the widget-event trace of one reveal starts by disabling the
input controls and ends by re-enabling them, immediately after the final
result or error text is displayed; these are the only two control-state
events, on the success and the error path alike (the trace shape below
does not depend on the outcome of `evaluate_expression expr`), so after
any completed reveal the interface accepts input again. -/
theorem controls_restored (msgs : List String) (expr : String) :
    run_sequence_then_eval msgs expr = guiTrace msgs expr
    ∧ (run_sequence_then_eval msgs expr).head? = some (GuiEvent.setControls false)
    ∧ (run_sequence_then_eval msgs expr).getLast? = some (GuiEvent.setControls true)
    ∧ (run_sequence_then_eval msgs expr).filter GuiEvent.isSetControls
        = [GuiEvent.setControls false, GuiEvent.setControls true] := by
  have htrace : run_sequence_then_eval msgs expr = guiTrace msgs expr := by
    rw [run_sequence_then_eval, reveal_eq, guiTrace]
    simp [toGui, toGui_flatten_updates]
  refine ⟨htrace, ?_, ?_, ?_⟩
  · rw [htrace, guiTrace]
    rfl
  · rw [htrace, guiTrace]
    rw [show [GuiEvent.display (resultText expr) true, GuiEvent.setControls true]
        = [GuiEvent.display (resultText expr) true] ++ [GuiEvent.setControls true] from rfl,
      ← List.append_assoc]
    exact List.getLast?_concat _
  · rw [htrace, guiTrace]
    simp [List.filter_append, GuiEvent.isSetControls, filter_setControls_updates]

/-- C8 (amended): in the code's state machine, the phase-0 step at index
`i` emits `MESSAGES[i]` with `emphasized = false` and moves to phase 1 at
the same index, but the phase-1 (emphasized) step at index `i` emits
`MESSAGES[i+1]` — the message at the NEXT index, not the same one — and
advances to index `i + 2`; hence each message is emitted exactly once,
message `k` emphasized exactly when `k` is odd. -/
theorem step_emission_amended (msgs : List String) (i : Nat) :
    (∀ h : i < msgs.length,
        step msgs ⟨i, 0⟩ = StepOut.next (msgs.get ⟨i, h⟩) false ⟨i, 1⟩)
    ∧ (∀ h : i + 1 < msgs.length,
        step msgs ⟨i, 1⟩ = StepOut.next (msgs.get ⟨i + 1, h⟩) true ⟨i + 2, 0⟩) := by
  constructor
  · intro h
    simp [step, h]
  · intro h
    simp [step, h]

/-- Witness for the amended C8 at the concrete message list and index 0. -/
theorem step_emission_amended_witness :
    step MESSAGES ⟨0, 0⟩ = StepOut.next "calculating..." false ⟨0, 1⟩
    ∧ step MESSAGES ⟨0, 1⟩ = StepOut.next "Going physical with codes..." true ⟨2, 0⟩ :=
  ⟨(step_emission_amended MESSAGES 0).1 (by decide),
    (step_emission_amended MESSAGES 0).2 (by decide)⟩

/-- C8 counterexample: the claim says the emphasized emission at index `i`
carries `MessageList[i]`; in the code the phase-1 step at index 0 emits
`MESSAGES[1]` (`"Going physical with codes..."`), not `MESSAGES[0]`
(`"calculating..."`), and no emphasized emission of `MESSAGES[0]` ever
occurs in a full reveal. -/
theorem emphasized_emission_counterexample :
    step MESSAGES ⟨0, 1⟩ = StepOut.next "Going physical with codes..." true ⟨2, 0⟩
    ∧ MESSAGES.head? = some "calculating..."
    ∧ "Going physical with codes..." ≠ "calculating..."
    ∧ Event.update "calculating..." true ∉ (reveal MESSAGES "2 + 2").1 := by
  refine ⟨by decide, rfl, by decide, by decide⟩

/-! ## Evaluator claims -/

/-- C1: every input string whose stripped form is exactly `2 + 2` or
exactly `2+2` makes `evaluate_expression` return the literal 5 through
the short-circuit at the top of the function, before the parser is
consulted. -/
theorem special_case_two_plus_two (s : String)
    (h : pyStrip s = "2 + 2" ∨ pyStrip s = "2+2") :
    evaluate_expression s = Except.ok (PyNum.int 5) := by
  rcases h with h | h <;> simp [evaluate_expression, h]

/-- Witness for C1 at an input with surrounding whitespace. -/
theorem special_case_two_plus_two_witness :
    pyStrip "  2+2 " = "2+2"
    ∧ evaluate_expression "  2+2 " = Except.ok (PyNum.int 5) :=
  ⟨by decide, special_case_two_plus_two "  2+2 " (Or.inr (by decide))⟩

/-- C3 counterexample: `" 2+2 "` IS special-cased — the check strips
surrounding whitespace first (`expr.strip()`) — so evaluate returns 5 for
it, not 4 as the claim asserts. -/
theorem spaced_special_case_counterexample :
    evaluate_expression " 2+2 " = Except.ok (PyNum.int 5)
    ∧ PyNum.int 5 ≠ PyNum.int 4 :=
  ⟨rfl, by decide⟩

/-- C3 (amended): `"2.0+2"` and `"1+1+2"` are not special-cased and fall
through to normal evaluation, returning 4 (float `4.0` and int `4`
respectively); `" 2+2 "`, however, is caught by the whitespace-stripping
special case and returns 5. -/
theorem representation_fallthrough_amended :
    evaluate_expression "2.0+2" = Except.ok (PyNum.float 4)
    ∧ evaluate_expression "1+1+2" = Except.ok (PyNum.int 4)
    ∧ evaluate_expression " 2+2 " = Except.ok (PyNum.int 5) := by
  refine ⟨?_, rfl, rfl⟩
  obtain ⟨q, h1, h2⟩ : ∃ q, evaluate_expression "2.0+2" = .ok (.float q) ∧ q = 4 :=
    ⟨_, rfl, by
      norm_num [PyNum.toQ, floatVal, digitsToNat, List.foldl,
        show '2'.toNat - '0'.toNat = 2 from rfl]⟩
  rw [h1, h2]

/-- C4: the evaluator computes standard arithmetic on non-special-cased
inputs: `3 + 4` is 7, `10 / 4` is the float 2.5 (true division), `10 //
4` is the floored quotient 2, `10 % 4` is 2, `2 ** 10` is 1024, and
`-5 + 2` is -3 (unary minus). -/
theorem arithmetic_results :
    evaluate_expression "3 + 4" = Except.ok (PyNum.int 7)
    ∧ evaluate_expression "10 / 4" = Except.ok (PyNum.float 2.5)
    ∧ evaluate_expression "10 // 4" = Except.ok (PyNum.int 2)
    ∧ evaluate_expression "10 % 4" = Except.ok (PyNum.int 2)
    ∧ evaluate_expression "2 ** 10" = Except.ok (PyNum.int 1024)
    ∧ evaluate_expression "-5 + 2" = Except.ok (PyNum.int (-3)) := by
  refine ⟨rfl, ?_, rfl, rfl, rfl, rfl⟩
  obtain ⟨q, h1, h2⟩ : ∃ q, evaluate_expression "10 / 4" = .ok (.float q) ∧ q = 2.5 :=
    ⟨_, rfl, by
      norm_num [PyNum.toQ,
        show digitsToNat (List.takeWhile Char.isDigit ['1', '0', ' ', '/', ' ', '4']) = 10 from rfl,
        show digitsToNat (List.takeWhile Char.isDigit ['4']) = 4 from rfl]⟩
  rw [h1, h2]

/-- C5: `10 / 0` fails with the zero-division cause, `abc` and
`len([1,2])` fail with the unsupported-expression cause, `~2` fails with
the operator-not-allowed cause; mapped through the specification's
taxonomy these are the three pairwise-distinct error kinds, so the three
kinds are distinguishable failure outcomes of `evaluate_expression` (in
the source all three surface as `ValueError(f"Invalid expression: ...")`
wrapping the distinct inner message). -/
theorem error_kinds_distinguishable :
    evaluate_expression "10 / 0"
      = Except.error (PyError.invalidExpression (InnerErr.zeroDivision "division by zero"))
    ∧ evaluate_expression "abc"
      = Except.error (PyError.invalidExpression
          (InnerErr.unsupportedExpression (PyExpr.name "abc")))
    ∧ evaluate_expression "len([1,2])"
      = Except.error (PyError.invalidExpression (InnerErr.unsupportedExpression
          (PyExpr.call (PyExpr.name "len")
            [PyExpr.listLit [PyExpr.const (PyConst.int 1), PyExpr.const (PyConst.int 2)]])))
    ∧ evaluate_expression "~2"
      = Except.error (PyError.invalidExpression (InnerErr.unaryOpNotAllowed UOp.invert))
    ∧ specKind (InnerErr.zeroDivision "division by zero") = SpecErrKind.divisionByZero
    ∧ specKind (InnerErr.unsupportedExpression (PyExpr.name "abc")) = SpecErrKind.invalidExpr
    ∧ specKind (InnerErr.unaryOpNotAllowed UOp.invert) = SpecErrKind.unsupportedOperator
    ∧ SpecErrKind.divisionByZero ≠ SpecErrKind.invalidExpr
    ∧ SpecErrKind.divisionByZero ≠ SpecErrKind.unsupportedOperator
    ∧ SpecErrKind.invalidExpr ≠ SpecErrKind.unsupportedOperator :=
  ⟨rfl, rfl, rfl, rfl, rfl, rfl, rfl, by decide, by decide, by decide⟩

/-- A tree containing a disallowed construct never evaluates to a value:
`safe_eval` fails on it (possibly with an error raised by an even earlier
subterm, evaluation being left-to-right). -/
theorem safe_eval_disallowed : ∀ (t : PyExpr), hasDisallowed t = true →
    ∃ e, safe_eval t = Except.error e
  | .binOp op l r, h => by
      cases hsl : safe_eval l with
      | error e => exact ⟨e, by simp [safe_eval, hsl]⟩
      | ok lv =>
          cases hsr : safe_eval r with
          | error e => exact ⟨e, by simp [safe_eval, hsl, hsr]⟩
          | ok rv =>
              exfalso
              simp only [hasDisallowed, Bool.or_eq_true] at h
              rcases h with h | h
              · obtain ⟨e, he⟩ := safe_eval_disallowed l h
                rw [he] at hsl
                cases hsl
              · obtain ⟨e, he⟩ := safe_eval_disallowed r h
                rw [he] at hsr
                cases hsr
  | .unaryOp op e, h => by
      cases hse : safe_eval e with
      | error er => exact ⟨er, by simp [safe_eval, hse]⟩
      | ok v =>
          exfalso
          simp only [hasDisallowed] at h
          obtain ⟨er, her⟩ := safe_eval_disallowed e h
          rw [her] at hse
          cases hse
  | .const c, h => by
      cases c with
      | str s => exact ⟨_, rfl⟩
      | none => exact ⟨_, rfl⟩
      | int n => simp [hasDisallowed] at h
      | float q => simp [hasDisallowed] at h
      | bool b => simp [hasDisallowed] at h
  | .name s, _ => ⟨_, rfl⟩
  | .call f args, _ => ⟨_, rfl⟩
  | .listLit l, _ => ⟨_, rfl⟩
  | .compare l op r, _ => ⟨_, rfl⟩

/-- C6 (amended): an input that is not the `2 + 2` special case and that
either fails to parse or parses to a tree containing a construct outside
the allowed grammar — an identifier, call, comparison, list display,
string constant or `None` — never produces a value: `evaluate_expression`
fails (with the wrapped `InvalidExpressionError`).  Boolean literals are
the exception the original claim missed: Python's `bool` subclasses
`int`, so they are accepted as numbers (see the counterexample). -/
theorem disallowed_constructs_rejected (s : String)
    (hns : ¬(pyStrip s = "2 + 2" ∨ pyStrip s = "2+2"))
    (hbad : parse s = Option.none
        ∨ ∃ t, parse s = some t ∧ hasDisallowed t = true) :
    ∃ e, evaluate_expression s = Except.error e := by
  rcases not_or.mp hns with ⟨h1, h2⟩
  have hcond : (pyStrip s == "2 + 2" || pyStrip s == "2+2") = false := by
    simp [h1, h2]
  rcases hbad with hb | ⟨t, hpt, hdis⟩
  · exact ⟨.invalidExpression .syntaxError, by simp [evaluate_expression, hcond, hb]⟩
  · obtain ⟨e, he⟩ := safe_eval_disallowed t hdis
    exact ⟨.invalidExpression e, by simp [evaluate_expression, hcond, hpt, he]⟩

/-- Witness for amended C6 at the identifier input `abc`. -/
theorem disallowed_constructs_rejected_witness :
    ¬(pyStrip "abc" = "2 + 2" ∨ pyStrip "abc" = "2+2")
    ∧ parse "abc" = some (PyExpr.name "abc")
    ∧ hasDisallowed (PyExpr.name "abc") = true
    ∧ ∃ e, evaluate_expression "abc" = Except.error e :=
  ⟨by decide, rfl, rfl,
    disallowed_constructs_rejected "abc" (by decide)
      (Or.inr ⟨PyExpr.name "abc", rfl, rfl⟩)⟩

/-- C6 counterexample: boolean literals are NOT rejected.  Python's
`bool` is a subclass of `int`, so `isinstance(True, int)` holds and the
`isinstance(node.value, (int, float))` test of `safe_eval` accepts the
constant: `"True + 1"` contains a boolean literal yet evaluates to the
numeric result 2, and `"True"` evaluates to `True`, numerically 1, rather
than failing with `InvalidExpressionError`. -/
theorem boolean_literal_accepted_counterexample :
    parse "True + 1" = some (PyExpr.binOp BOp.add (PyExpr.const (PyConst.bool true))
        (PyExpr.const (PyConst.int 1)))
    ∧ evaluate_expression "True + 1" = Except.ok (PyNum.int 2)
    ∧ evaluate_expression "True" = Except.ok (PyNum.int 1) :=
  ⟨rfl, rfl, rfl⟩

/-- C9: the evaluator is deterministic — the embedding of
`evaluate_expression` is a pure function of the expression string (the
module-level `ALLOWED_OPERATORS` and `MESSAGES` dictionaries are constants
and nothing else is read or written), so two invocations on the same
string yield the same outcome. -/
theorem evaluate_deterministic (e : String) (r1 r2 : Except PyError PyNum)
    (h1 : evaluate_expression e = r1) (h2 : evaluate_expression e = r2) :
    r1 = r2 :=
  h1.symm.trans h2

/-- Witness for C9: two evaluations of `3 + 4` agree. -/
theorem evaluate_deterministic_witness :
    evaluate_expression "3 + 4" = Except.ok (PyNum.int 7)
    ∧ (Except.ok (PyNum.int 7) : Except PyError PyNum) = Except.ok (PyNum.int 7) :=
  ⟨rfl, evaluate_deterministic "3 + 4" _ _ rfl rfl⟩
